import Mathlib

/-!
Shallow embedding of the english-practice backend's game-session engine,
random speech selection and bulk-import workflow, translated from
`apps/backend/app/services/game_service.py`, `speech_service.py`,
`import_service.py` and the SQLAlchemy models in `apps/backend/app/models/`.

Modelling conventions:
* UUIDs are modelled as `Nat` identifiers; `datetime` values as `Nat`
  timestamps (hours for upload-session expiry, abstract ticks elsewhere).
* Python `float` scores are modelled as `ℚ` (exact arithmetic for the
  unweighted means computed by `complete_session`).
* The async database session becomes explicit state passing over a `Db`
  record; exceptions become `Except`.
-/

namespace EnglishPractice

/-- Game play modes, from `app/models/game_session.py` (`GameMode`). -/
inductive GameMode
  | listenOnly
  | listenAndRepeat
deriving DecidableEq, Repr

/-- User response evaluation, from `app/models/game_result.py` (`UserResponse`). -/
inductive UserResponse
  | correct
  | incorrect
  | skipped
deriving DecidableEq, Repr

/-- CEFR proficiency levels, from `app/models/speech.py` (`Level`). -/
inductive Level
  | A1
  | A2
  | B1
  | B2
  | C1
deriving DecidableEq, Repr

/-- Speech content type, from `app/models/speech.py` (`SpeechType`). -/
inductive SpeechType
  | question
  | answer
deriving DecidableEq, Repr

/-- A row of the `speeches` table with its tag associations
(`app/models/speech.py`, `Speech` and the `speech_tags` junction:
`tags` lists the tag ids associated to this speech; the junction's
composite primary key makes the association list duplicate-free). -/
structure SpeechRec where
  id : Nat
  audioUrl : String
  text : String
  level : Level
  type : SpeechType
  tags : List Nat
deriving DecidableEq, Repr

/-- A row of the `tags` table (`app/models/tag.py`). -/
structure TagRec where
  id : Nat
  name : String
  category : String
deriving DecidableEq, Repr

/-- A row of the `game_sessions` table (`app/models/game_session.py`),
at the ORM-attribute level: `completedAt = none` is a Python `None`
attribute (the separate column-level server default is modelled by
`persistSession` below). -/
structure GameSessionRec where
  id : Nat
  userId : Nat
  mode : GameMode
  level : Level
  selectedTags : List Nat
  totalSpeeches : Nat
  correctCount : Nat
  incorrectCount : Nat
  skippedCount : Nat
  avgPronunciationScore : Option ℚ
  avgAccuracyScore : Option ℚ
  avgFluencyScore : Option ℚ
  completedAt : Option Nat
deriving DecidableEq, Repr

/-- A row of the `game_results` table (`app/models/game_result.py`). -/
structure GameResultRec where
  sessionId : Nat
  speechId : Nat
  sequenceNumber : Nat
  userResponse : UserResponse
  recognizedText : Option String
  pronunciationScore : Option ℚ
  accuracyScore : Option ℚ
  fluencyScore : Option ℚ
  completenessScore : Option ℚ
deriving DecidableEq, Repr

/-- The relational store as seen by the services. -/
structure Db where
  sessions : List GameSessionRec
  speeches : List SpeechRec
  tags : List TagRec
  results : List GameResultRec
deriving DecidableEq, Repr

/-- The two user-facing error kinds raised by `GameService`
(`app/core/exceptions.py`: `NotFoundError`, `ValidationError`). -/
inductive Err
  | notFound
  | validation
deriving DecidableEq, Repr

/-- One element of `CompleteGameSessionRequest.results`
(`app/schemas/game.py`, `GameResultInput`). -/
structure GameResultInput where
  speechId : Nat
  sequenceNumber : Nat
  userResponse : UserResponse
  recognizedText : Option String
  pronunciationScore : Option ℚ
  accuracyScore : Option ℚ
  fluencyScore : Option ℚ
  completenessScore : Option ℚ
deriving DecidableEq, Repr

/-- Request body of `complete_session` (`app/schemas/game.py`,
`CompleteGameSessionRequest`). -/
structure CompleteGameSessionRequest where
  sessionId : Nat
  results : List GameResultInput
deriving DecidableEq, Repr

/-- Request body of `create_session` (`app/schemas/game.py`,
`CreateGameSessionRequest`). -/
structure CreateGameSessionRequest where
  mode : GameMode
  level : Level
  selectedTags : List Nat
deriving DecidableEq, Repr

/-- Pydantic field constraints of `GameResultInput` (`app/schemas/game.py`):
`sequence_number` has `ge=1` and every score field has `ge=0, le=100`. -/
def scoreRangeOk : Option ℚ → Bool
  | none => true
  | some q => decide (0 ≤ q ∧ q ≤ 100)

/-- Schema-level validity of one submitted result (`app/schemas/game.py`). -/
def validResultInput (r : GameResultInput) : Bool :=
  decide (1 ≤ r.sequenceNumber) && scoreRangeOk r.pronunciationScore
    && scoreRangeOk r.accuracyScore && scoreRangeOk r.fluencyScore
    && scoreRangeOk r.completenessScore

/-- The session fetch shared by `complete_session` and `get_session_by_id`
(`game_service.py`): select the session whose id and owning user both
match. -/
def findSession (db : Db) (userId sid : Nat) : Option GameSessionRec :=
  db.sessions.find? (fun s => s.id == sid && s.userId == userId)

/-- Membership of a speech id in the content store, the check behind
`select(Speech.id).where(Speech.id.in_(speech_ids))` in `complete_session`. -/
def speechIdExists (db : Db) (i : Nat) : Bool :=
  db.speeches.any (fun s => s.id == i)

/-- Python `sum(xs) / len(xs)` on a list of scores. -/
def listMean (xs : List ℚ) : ℚ :=
  xs.sum / (xs.length : ℚ)

/-- The `GameResult` row built for one input in the `complete_session`
loop (`game_service.py` lines 110-121): every field, the sequence number
included, is copied verbatim from the client-supplied input. -/
def mkGameResult (sid : Nat) (r : GameResultInput) : GameResultRec :=
  { sessionId := sid
    speechId := r.speechId
    sequenceNumber := r.sequenceNumber
    userResponse := r.userResponse
    recognizedText := r.recognizedText
    pronunciationScore := r.pronunciationScore
    accuracyScore := r.accuracyScore
    fluencyScore := r.fluencyScore
    completenessScore := r.completenessScore }

/-- Scores collected by the `complete_session` loop: the `if session.mode ==
GameMode.LISTEN_AND_REPEAT` guard (`game_service.py` line 134) means the
lists stay empty for any other mode. -/
def collectedScores (mode : GameMode) (f : GameResultInput → Option ℚ)
    (results : List GameResultInput) : List ℚ :=
  if mode = GameMode.listenAndRepeat then results.filterMap f else []

/-- Session statistics written by `complete_session` on success
(`game_service.py` lines 142-157): counters recomputed from the batch,
`completed_at` set to now, and each average assigned only when its score
list is non-empty (otherwise the previous attribute value is kept). -/
def completedSessionOf (session : GameSessionRec)
    (req : CompleteGameSessionRequest) (now : Nat) : GameSessionRec :=
  let pronScores := collectedScores session.mode (fun r => r.pronunciationScore) req.results
  let accScores := collectedScores session.mode (fun r => r.accuracyScore) req.results
  let fluScores := collectedScores session.mode (fun r => r.fluencyScore) req.results
  { session with
      totalSpeeches := req.results.length
      correctCount := req.results.countP (fun r => r.userResponse == UserResponse.correct)
      incorrectCount := req.results.countP (fun r => r.userResponse == UserResponse.incorrect)
      skippedCount := req.results.countP (fun r => r.userResponse == UserResponse.skipped)
      completedAt := some now
      avgPronunciationScore :=
        if pronScores = [] then session.avgPronunciationScore else some (listMean pronScores)
      avgAccuracyScore :=
        if accScores = [] then session.avgAccuracyScore else some (listMean accScores)
      avgFluencyScore :=
        if fluScores = [] then session.avgFluencyScore else some (listMean fluScores) }

/-- Store state after a successful `complete_session`: the freshly built
`GameResult` rows are inserted and the session row is replaced by its
completed version. -/
def completedDbOf (db : Db) (session : GameSessionRec)
    (req : CompleteGameSessionRequest) (now : Nat) : Db :=
  { db with
      results := db.results ++ req.results.map (mkGameResult session.id)
      sessions := db.sessions.map
        (fun s => if s.id == session.id then completedSessionOf session req now else s) }

/-- `GameService.complete_session` (`game_service.py` lines 57-170):
fetch scoped to the owner (`NotFound` if absent or owned by someone
else), reject already-completed sessions (`Validation`), reject any batch
referencing a missing speech id (`Validation`), otherwise persist all
results and the recomputed statistics atomically. -/
def completeSession (db : Db) (userId : Nat) (req : CompleteGameSessionRequest)
    (now : Nat) : Except Err (Db × GameSessionRec) :=
  match findSession db userId req.sessionId with
  | none => Except.error Err.notFound
  | some session =>
    if session.completedAt.isSome then Except.error Err.validation
    else
      let speechIds := req.results.map (fun r => r.speechId)
      let missingIds := speechIds.filter (fun i => !(speechIdExists db i))
      if missingIds = [] then
        Except.ok (completedDbOf db session req now, completedSessionOf session req now)
      else Except.error Err.validation

/-- Run `complete_session` as a state transition: on an error the store is
left exactly as it was (the service raises before any write, and SQLAlchemy
never flushes the aborted transaction). -/
def runComplete (db : Db) (userId : Nat) (req : CompleteGameSessionRequest)
    (now : Nat) : Db × Option Err :=
  match completeSession db userId req now with
  | Except.ok (db', _) => (db', none)
  | Except.error e => (db, some e)

/-- `GameService.get_session_by_id` (`game_service.py` lines 172-199):
ownership-scoped read returning `None` when absent or not owned. -/
def getSessionById (db : Db) (userId sid : Nat) : Option GameSessionRec :=
  findSession db userId sid

/-- The `GET /game/sessions/id` route (`app/api/v1/game.py`,
`get_game_session`): a `None` from the service becomes a 404 NotFound. -/
def getGameSessionRoute (db : Db) (userId sid : Nat) : Except Err GameSessionRec :=
  match getSessionById db userId sid with
  | none => Except.error Err.notFound
  | some s => Except.ok s

/-- `GameService.create_session` (`game_service.py` lines 27-55) at the
ORM-attribute level: all four counters are set to zero, the average-score
attributes and `completed_at` are not assigned (Python `None`). -/
def createSession (db : Db) (userId newId : Nat)
    (req : CreateGameSessionRequest) : Db × GameSessionRec :=
  let s : GameSessionRec :=
    { id := newId
      userId := userId
      mode := req.mode
      level := req.level
      selectedTags := req.selectedTags
      totalSpeeches := 0
      correctCount := 0
      incorrectCount := 0
      skippedCount := 0
      avgPronunciationScore := none
      avgAccuracyScore := none
      avgFluencyScore := none
      completedAt := none }
  ({ db with sessions := db.sessions ++ [s] }, s)

/-- Column-level metadata relevant to `completed_at`. -/
structure ColumnSpec where
  nullable : Bool
  hasServerDefaultNow : Bool
deriving DecidableEq, Repr

/-- The `completed_at` column of `game_sessions`
(`app/models/game_session.py`): `Column(DateTime(timezone=True),
server_default=func.now(), nullable=False)`. -/
def completedAtColumn : ColumnSpec :=
  { nullable := false, hasServerDefaultNow := true }

/-- Database insert semantics for the `completed_at` column: when the ORM
supplies no value, a column with `server_default=func.now()` is filled
with the insert time by the database. -/
def persistCompletedAt (ormValue : Option Nat) (now : Nat) : Option Nat :=
  match ormValue with
  | some t => some t
  | none => if completedAtColumn.hasServerDefaultNow then some now else none

/-- The `game_sessions` row as actually stored by the database after the
`INSERT` issued by `create_session`'s commit. -/
def persistSession (s : GameSessionRec) (now : Nat) : GameSessionRec :=
  { s with completedAt := persistCompletedAt s.completedAt now }

/-- The tag-association count behind the `complete_session`-independent
speech filter: number of `speech_tags` rows of this speech whose `tag_id`
is among the requested ids (`speech_service.py` lines 44-50, the
`GROUP BY ... HAVING count(...)` subquery). -/
def tagMatchCount (tagIds : List Nat) (speechTags : List Nat) : Nat :=
  speechTags.countP (fun t => decide (t ∈ tagIds))

/-- The tag clause of `get_random_speeches` (`speech_service.py` lines
42-52): applied only when `tag_ids` is non-empty, a speech passes when its
matching-association count equals the number of requested tag ids. -/
def tagFilterOk (tagIds : List Nat) (s : SpeechRec) : Bool :=
  if tagIds.isEmpty then true
  else tagMatchCount tagIds s.tags == tagIds.length

/-- The full filter chain of `get_random_speeches` (`speech_service.py`
lines 31-52): optional level and type equality filters plus the tag
clause. `ORDER BY random() LIMIT n` then draws from exactly this candidate
set, so membership here characterises which speeches can be returned. -/
def randomSpeechCandidates (db : Db) (level : Option Level)
    (ty : Option SpeechType) (tagIds : List Nat) : List SpeechRec :=
  db.speeches.filter (fun s =>
    (match level with | none => true | some l => s.level == l)
    && (match ty with | none => true | some t => s.type == t)
    && tagFilterOk tagIds s)

/-- An uploaded audio file descriptor (`import_service.py`,
`UploadedFile`): note that it records the original filename, not the
disambiguated storage name. -/
structure UploadedFile where
  id : Nat
  originalFilename : String
  storageUrl : String
  sizeBytes : Nat
deriving DecidableEq, Repr

/-- Insert into a Python dict modelled as an association list: assignment
to an existing key overwrites its value. -/
def dictInsert (m : List (String × UploadedFile)) (k : String)
    (v : UploadedFile) : List (String × UploadedFile) :=
  (m.filter (fun p => p.1 != k)) ++ [(k, v)]

/-- The in-memory upload session (`import_service.py`, `UploadSession`):
`files` is the dict `filename -> UploadedFile`, `createdAt` in hours. -/
structure UploadSessionRec where
  sessionId : String
  createdAt : Nat
  files : List (String × UploadedFile)
deriving DecidableEq, Repr

/-- `UploadSession.add_file` (`import_service.py` lines 63-65): the dict
entry is keyed by `uploaded_file.original_filename`. -/
def addFile (s : UploadSessionRec) (f : UploadedFile) : UploadSessionRec :=
  { s with files := dictInsert s.files f.originalFilename f }

/-- `UploadSession.get_file` (`import_service.py` lines 67-69). -/
def getFile (s : UploadSessionRec) (name : String) : Option UploadedFile :=
  (s.files.find? (fun p => p.1 == name)).map (fun p => p.2)

/-- `UploadSession.is_expired` (`import_service.py` lines 71-74), with
ages measured in whole hours. -/
def isExpired (s : UploadSessionRec) (now : Nat) : Bool :=
  now - s.createdAt > 24

/-- Python `str.split(sep)` for a single-character separator, over the
character list: splitting the empty string yields one empty part. -/
def splitCharList (c : Char) : List Char → List (List Char)
  | [] => [[]]
  | x :: xs =>
    match splitCharList c xs with
    | [] => if x = c then [[], []] else [[x]]
    | g :: gs => if x = c then [] :: g :: gs else (x :: g) :: gs

/-- Python `str.split(sep)` for a single-character separator. -/
def splitOnChar (c : Char) (s : String) : List String :=
  (splitCharList c s.data).map (fun l => String.mk l)

/-- Python `str.strip()`: drop leading and trailing whitespace. -/
def pyStrip (s : String) : String :=
  String.mk (((s.data.dropWhile Char.isWhitespace).reverse.dropWhile
    Char.isWhitespace).reverse)

/-- Python `str.lower()` (ASCII case mapping, which is all the code
feeds it). -/
def pyLower (s : String) : String :=
  String.mk (s.data.map Char.toLower)

/-- Python `str.upper()` (ASCII case mapping, which is all the code
feeds it). -/
def pyUpper (s : String) : String :=
  String.mk (s.data.map Char.toUpper)

/-- Python `filename.rsplit(".", 1)[0]`: everything before the last dot
(the whole name when there is no dot). -/
def nameWithoutExt (filename : String) : String :=
  let parts := splitOnChar '.' filename
  if parts.length ≤ 1 then filename
  else String.intercalate "." parts.dropLast

/-- `ImportService._get_file_extension` (`import_service.py` lines
330-334): empty when the name has no dot, otherwise a dot plus the
lowercased text after the last dot. -/
def getFileExtension (filename : String) : String :=
  let parts := splitOnChar '.' filename
  if parts.length ≤ 1 then ""
  else "." ++ pyLower (parts.reverse.headD "")

/-- Allowed audio extensions (`import_service.py`, `ALLOWED_EXTENSIONS`). -/
def allowedExtensions : List String := [".mp3", ".wav", ".m4a"]

/-- Max file size in bytes (`import_service.py`, `MAX_FILE_SIZE`). -/
def maxFileSize : Nat := 10 * 1024 * 1024

/-- One file argument of `upload_audio_files`: `(filename, data, size)`
with the byte stream itself abstracted away. -/
structure UploadInput where
  filename : String
  sizeBytes : Nat
deriving DecidableEq, Repr

/-- The per-file loop of `ImportService.upload_audio_files`
(`import_service.py` lines 173-219): validate extension and size, build
the suffix-disambiguated `upload_filename` from the running duplicate
counter, derive the storage path `uploads/sessionId/uploadFilename`
(whose URL `StorageService.upload_audio` returns), and register the
`UploadedFile` — which keeps the original filename — in the session.
Generated uuid file ids are modelled by the running counter `nextId`. -/
def uploadLoop (sessionId : String) : List (String × Nat) → UploadSessionRec →
    List UploadedFile → Nat → List UploadInput →
    Except String (UploadSessionRec × List UploadedFile)
  | _, session, acc, _, [] => Except.ok (session, acc)
  | counts, session, acc, nextId, f :: rest =>
    let fileExt := getFileExtension f.filename
    if !(fileExt ∈ allowedExtensions) then
      Except.error "Invalid file extension"
    else if f.sizeBytes > maxFileSize then
      Except.error "File exceeds max size"
    else
      let prior := (counts.find? (fun p => p.1 == f.filename)).map (fun p => p.2)
      let uploadFilename :=
        match prior with
        | some c => nameWithoutExt f.filename ++ "_" ++ toString (c + 1) ++ fileExt
        | none => f.filename
      let counts' :=
        match prior with
        | some c => (counts.filter (fun p => p.1 != f.filename)) ++ [(f.filename, c + 1)]
        | none => counts ++ [(f.filename, 0)]
      let storageUrl := "uploads/" ++ sessionId ++ "/" ++ uploadFilename
      let uploadedFile : UploadedFile :=
        { id := nextId
          originalFilename := f.filename
          storageUrl := storageUrl
          sizeBytes := f.sizeBytes }
      uploadLoop sessionId counts' (addFile session uploadedFile)
        (acc ++ [uploadedFile]) (nextId + 1) rest

/-- `ImportService.upload_audio_files` (`import_service.py` lines
150-224): fresh session, then the per-file loop; the generated
session id is supplied as a parameter. -/
def uploadAudioFiles (sessionId : String) (now : Nat)
    (files : List UploadInput) :
    Except String (UploadSessionRec × List UploadedFile) :=
  uploadLoop sessionId []
    { sessionId := sessionId, createdAt := now, files := [] } [] 0 files

/-- The two Python exception kinds arising inside the row-validation
loop of `import_csv`: `ValueError`, raised deliberately by
`_parse_csv_row` and caught by the loop's `except ValueError`, and
`AttributeError`, raised by `.strip()` on a `None` cell value and caught
nowhere, so it escapes `import_csv` entirely. -/
inductive PyError
  | valueError (msg : String)
  | attributeError
deriving DecidableEq, Repr

/-- One data row of the CSV as `csv.DictReader` delivers it. For the
three required columns (whose presence in the header `import_csv` has
already checked before any row is read) the field holds the dict value:
`some v` for a cell, or `none` for the `None` restval that `DictReader`
fills in when the data row is shorter than the header. For the optional
`type` and `tags` columns the outer `Option` is column presence: `none`
means the column is absent from the header (so `row.get` will fall back
to its default), `some none` is a present column with a short-row `None`
value, and `some (some v)` a present column with cell `v`. -/
structure CsvRow where
  audioFilename : Option String
  text : Option String
  level : Option String
  type : Option (Option String)
  tags : Option (Option String)
deriving DecidableEq, Repr

/-- Python `row.get(key, default)` for an optional column: the default
(always a `str` in the source) when the key is absent, otherwise the
stored value, which may be `None`. -/
def pyGet (cell : Option (Option String)) (dflt : String) : Option String :=
  match cell with
  | none => some dflt
  | some v => v

/-- A validated row ready for speech creation, the dict built by
`_parse_csv_row` minus its `row_num` entry (attached by the caller). -/
structure ParsedRow where
  audioUrl : String
  text : String
  level : Level
  type : SpeechType
  tagNames : List String
deriving DecidableEq, Repr

/-- A `CSVValidationError` (`import_service.py` lines 77-89). -/
structure CsvError where
  row : Nat
  error : String
deriving DecidableEq, Repr

/-- A `CreatedSpeech` report entry (`import_service.py` lines 92-106). -/
structure CreatedSpeech where
  row : Nat
  speechId : Nat
  text : String
deriving DecidableEq, Repr

/-- Python `Level[level_str]`: lookup by enum member name. -/
def levelFromKey : String → Option Level
  | "A1" => some Level.A1
  | "A2" => some Level.A2
  | "B1" => some Level.B1
  | "B2" => some Level.B2
  | "C1" => some Level.C1
  | _ => none

/-- Python `SpeechType[type_str.upper()]`: lookup by enum member name. -/
def speechTypeFromKey : String → Option SpeechType
  | "QUESTION" => some SpeechType.question
  | "ANSWER" => some SpeechType.answer
  | _ => none

/-- `ImportService._parse_csv_row` (`import_service.py` lines 336-409):
validate the row against the upload session's file map and the filenames
already seen in this CSV. A deliberate check failure raises `ValueError`
with its message; but each `row.get(...).strip()` on a cell whose value
is the `None` restval of a short data row raises `AttributeError`
instead, which nothing in `import_csv` catches. -/
def parseCsvRow (sess : UploadSessionRec) (seen : List String)
    (row : CsvRow) : Except PyError ParsedRow :=
  match row.audioFilename with
  | none => Except.error PyError.attributeError
  | some rawName =>
    let audioFilename := pyStrip rawName
    if audioFilename = "" then
      Except.error (PyError.valueError "Missing required field: audio_filename")
    else if audioFilename ∈ seen then
      Except.error (PyError.valueError
        ("Duplicate audio_filename " ++ audioFilename ++ " in CSV"))
    else
      match getFile sess audioFilename with
      | none =>
        Except.error (PyError.valueError
          ("Audio file " ++ audioFilename ++ " not found in upload session"))
      | some uploadedFile =>
        match row.text with
        | none => Except.error PyError.attributeError
        | some rawText =>
          let text := pyStrip rawText
          if text = "" then
            Except.error (PyError.valueError "Missing required field: text")
          else
            match row.level with
            | none => Except.error PyError.attributeError
            | some rawLevel =>
              let levelStr := pyUpper (pyStrip rawLevel)
              if levelStr = "" then
                Except.error (PyError.valueError "Missing required field: level")
              else
                match levelFromKey levelStr with
                | none => Except.error (PyError.valueError ("Invalid level " ++ levelStr))
                | some lvl =>
                  match pyGet row.type "answer" with
                  | none => Except.error PyError.attributeError
                  | some rawType =>
                    let typeStr := pyLower (pyStrip rawType)
                    match (if typeStr = "" then some SpeechType.answer
                           else speechTypeFromKey (pyUpper typeStr)) with
                    | none => Except.error (PyError.valueError ("Invalid type " ++ typeStr))
                    | some ty =>
                      match pyGet row.tags "" with
                      | none => Except.error PyError.attributeError
                      | some rawTags =>
                        let tagsStr := pyStrip rawTags
                        let tagNames :=
                          if tagsStr = "" then []
                          else ((splitOnChar ',' tagsStr).map pyStrip).filter
                            (fun t => t != "")
                        Except.ok
                          { audioUrl := uploadedFile.storageUrl
                            text := text
                            level := lvl
                            type := ty
                            tagNames := tagNames }

/-- The validation pass of `import_csv` (`import_service.py` lines
272-282): rows are numbered from 2 (the header is row 1); a row that
parses contributes its parsed form and adds its raw `audio_filename` to
the seen set, a row whose parse raises `ValueError` contributes exactly
one `CSVValidationError` carrying its row number — but a row whose parse
raises `AttributeError` aborts the loop: the `except ValueError` clause
does not catch it, so it propagates out of `import_csv`. -/
def processRows (sess : UploadSessionRec) : List String → Nat → List CsvRow →
    Except PyError (List (Nat × ParsedRow) × List CsvError)
  | _, _, [] => Except.ok ([], [])
  | seen, n, row :: rest =>
    match parseCsvRow sess seen row with
    | Except.ok p =>
      match processRows sess (seen ++ row.audioFilename.toList) (n + 1) rest with
      | Except.ok rs => Except.ok ((n, p) :: rs.1, rs.2)
      | Except.error e => Except.error e
    | Except.error (PyError.valueError msg) =>
      match processRows sess seen (n + 1) rest with
      | Except.ok rs => Except.ok (rs.1, { row := n, error := msg } :: rs.2)
      | Except.error e => Except.error e
    | Except.error PyError.attributeError => Except.error PyError.attributeError

/-- Indices (0-based) of the data rows rejected by the validation pass,
under the same seen-set threading as `processRows`. -/
def failIndices (sess : UploadSessionRec) : List String → Nat → List CsvRow →
    List Nat
  | _, _, [] => []
  | seen, i, row :: rest =>
    match parseCsvRow sess seen row with
    | Except.ok _ => failIndices sess (seen ++ row.audioFilename.toList) (i + 1) rest
    | Except.error _ => i :: failIndices sess seen (i + 1) rest

/-- `ImportService._get_or_create_tags` for a single name
(`import_service.py` lines 426-439): reuse an existing tag or create one
with category "imported"; the generated uuid is modelled by a fresh
counter derived from the table size. -/
def getOrCreateTag (db : Db) (name : String) : Nat × Db :=
  match db.tags.find? (fun t => t.name == name) with
  | some t => (t.id, db)
  | none =>
    let newTag : TagRec := { id := db.tags.length, name := name, category := "imported" }
    (newTag.id, { db with tags := db.tags ++ [newTag] })

/-- `ImportService._get_or_create_tags` (`import_service.py` lines
411-441). -/
def getOrCreateTags (db : Db) : List String → List Nat × Db
  | [] => ([], db)
  | name :: rest =>
    let r1 := getOrCreateTag db name
    let r2 := getOrCreateTags r1.2 rest
    (r1.1 :: r2.1, r2.2)

/-- The creation phase of `import_csv` (`import_service.py` lines
288-317): one speech per validated row, tags resolved or auto-created;
generated speech uuids are modelled by fresh counters from the table
size. -/
def createSpeechesFromRows (db : Db) : List (Nat × ParsedRow) →
    List CreatedSpeech × Db
  | [] => ([], db)
  | (rowNum, p) :: rest =>
    let tr := getOrCreateTags db p.tagNames
    let db1 := tr.2
    let newSpeech : SpeechRec :=
      { id := db1.speeches.length
        audioUrl := p.audioUrl
        text := p.text
        level := p.level
        type := p.type
        tags := tr.1 }
    let db2 := { db1 with speeches := db1.speeches ++ [newSpeech] }
    let rs := createSpeechesFromRows db2 rest
    ({ row := rowNum, speechId := newSpeech.id, text := p.text } :: rs.1, rs.2)

/-- `ImportService.import_csv` (`import_service.py` lines 230-324) after
header parsing: reject an expired upload session (a deliberate
`ValueError`), validate every data row collecting one error per
`ValueError`-failing row — an `AttributeError` from a short row escapes
uncaught instead — and create speeches only when the error list is empty
(all-or-nothing). The registry lookup of the session by id and the
required-column header check happen before this point and are not
modelled. -/
def importCsv (db : Db) (sess : UploadSessionRec) (now : Nat)
    (rows : List CsvRow) :
    Except PyError (List CreatedSpeech × List CsvError × Db) :=
  if isExpired sess now then
    Except.error (PyError.valueError "Upload session has expired")
  else
    match processRows sess [] 2 rows with
    | Except.error e => Except.error e
    | Except.ok vr =>
      if vr.2 = [] then
        let cr := createSpeechesFromRows db vr.1
        Except.ok (cr.1, [], cr.2)
      else Except.ok ([], vr.2, db)

/-- Index metadata relevant to `game_results`. -/
structure IndexSpec where
  columns : List String
  unique : Bool
deriving DecidableEq, Repr

/-- The composite index declared in `GameResult.__table_args__`
(`app/models/game_result.py` lines 77-79):
`Index('ix_game_results_session_sequence', 'session_id',
'sequence_number')` — a plain index, with no uniqueness constraint. -/
def gameResultsSessionSequenceIndex : IndexSpec :=
  { columns := ["session_id", "sequence_number"], unique := false }

/-- Decidable equality for `Except`, so that concrete runs of the
embedded services can be checked by `decide`. -/
instance exceptDecEq {ε α : Type} [DecidableEq ε] [DecidableEq α] :
    DecidableEq (Except ε α) := fun x y =>
  match x, y with
  | Except.ok a, Except.ok b =>
    if h : a = b then Decidable.isTrue (by rw [h])
    else Decidable.isFalse (by intro hc; cases hc; exact h rfl)
  | Except.ok _, Except.error _ => Decidable.isFalse (by intro hc; cases hc)
  | Except.error _, Except.ok _ => Decidable.isFalse (by intro hc; cases hc)
  | Except.error e, Except.error f =>
    if h : e = f then Decidable.isTrue (by rw [h])
    else Decidable.isFalse (by intro hc; cases hc; exact h rfl)

/-! Concrete stores, sessions and requests used to instantiate the
theorems below. -/

/-- A speech with id 1 present in the content store. -/
def speechOne : SpeechRec :=
  { id := 1, audioUrl := "u", text := "hello", level := Level.A1
    type := SpeechType.answer, tags := [1, 2] }

/-- A freshly created `listen_only` session (id 10, owner 1). -/
def listenOnlySession : GameSessionRec :=
  { id := 10, userId := 1, mode := GameMode.listenOnly, level := Level.A1
    selectedTags := [], totalSpeeches := 0, correctCount := 0
    incorrectCount := 0, skippedCount := 0, avgPronunciationScore := none
    avgAccuracyScore := none, avgFluencyScore := none, completedAt := none }

/-- A freshly created `listen_and_repeat` session (id 10, owner 1). -/
def listenRepeatSession : GameSessionRec :=
  { listenOnlySession with mode := GameMode.listenAndRepeat }

/-- A result input referencing speech 1 with a pronunciation score of 80. -/
def scoredInput : GameResultInput :=
  { speechId := 1, sequenceNumber := 1, userResponse := UserResponse.correct
    recognizedText := none, pronunciationScore := some 80
    accuracyScore := none, fluencyScore := none, completenessScore := none }

/-- Store holding the fresh `listen_only` session and speech 1. -/
def listenOnlyDb : Db :=
  { sessions := [listenOnlySession], speeches := [speechOne], tags := [], results := [] }

/-- Store holding the fresh `listen_and_repeat` session and speech 1. -/
def listenRepeatDb : Db :=
  { sessions := [listenRepeatSession], speeches := [speechOne], tags := [], results := [] }

/-- A single-result batch for session 10 whose one result carries a
pronunciation score. -/
def scoredReq : CompleteGameSessionRequest :=
  { sessionId := 10, results := [scoredInput] }

/-- A two-result batch with pronunciation scores 80 and 90. -/
def twoScoredReq : CompleteGameSessionRequest :=
  { sessionId := 10
    results := [scoredInput,
      { scoredInput with
          pronunciationScore := some 90
          userResponse := UserResponse.skipped }] }

/-- A two-result batch whose results both carry sequence number 1. -/
def duplicateSeqReq : CompleteGameSessionRequest :=
  { sessionId := 10
    results := [scoredInput, { scoredInput with sequenceNumber := 1 }] }

/-- A batch referencing the nonexistent speech id 99. -/
def missingSpeechReq : CompleteGameSessionRequest :=
  { sessionId := 10, results := [{ scoredInput with speechId := 99 }] }

/-- Store holding session 10 already completed at time 3, owned by user 1. -/
def completedDb : Db :=
  { sessions := [{ listenOnlySession with completedAt := some 3 }]
    speeches := [speechOne], tags := [], results := [] }

/-- The same two duplicate `a.mp3` uploads used to probe filename
disambiguation. -/
def dupUploadFiles : List UploadInput := [⟨"a.mp3", 3⟩, ⟨"a.mp3", 4⟩]

/-- The upload-session value produced by uploading `dupUploadFiles`. -/
def dupUploadSess : UploadSessionRec :=
  { sessionId := "sid", createdAt := 0
    files := [("a.mp3",
      { id := 1, originalFilename := "a.mp3"
        storageUrl := "uploads/sid/a_1.mp3", sizeBytes := 4 })] }

/-- The uploaded-file list produced by uploading `dupUploadFiles`. -/
def dupUploadList : List UploadedFile :=
  [{ id := 0, originalFilename := "a.mp3"
     storageUrl := "uploads/sid/a.mp3", sizeBytes := 3 },
   { id := 1, originalFilename := "a.mp3"
     storageUrl := "uploads/sid/a_1.mp3", sizeBytes := 4 }]

/-- An upload session registering `a.mp3` and `b.mp3`. -/
def csvUploadSess : UploadSessionRec :=
  { sessionId := "sid", createdAt := 0
    files := [("a.mp3",
      { id := 0, originalFilename := "a.mp3"
        storageUrl := "uploads/sid/a.mp3", sizeBytes := 3 }),
      ("b.mp3",
      { id := 1, originalFilename := "b.mp3"
        storageUrl := "uploads/sid/b.mp3", sizeBytes := 4 })] }

/-- An empty relational store. -/
def emptyDb : Db := { sessions := [], speeches := [], tags := [], results := [] }

/-- A CSV data row that passes validation against `csvUploadSess`. -/
def goodCsvRow : CsvRow :=
  { audioFilename := some "a.mp3", text := some "hello", level := some "A1"
    type := none, tags := none }

/-- A CSV data row with an invalid level code. -/
def badLevelCsvRow : CsvRow :=
  { audioFilename := some "b.mp3", text := some "there", level := some "X9"
    type := none, tags := none }

/-- The short data row `b.mp3` of a CSV with header
`audio_filename,text,level`: `csv.DictReader` fills the missing `text`
and `level` cells with `None`. -/
def shortCsvRow : CsvRow :=
  { audioFilename := some "b.mp3", text := none, level := none
    type := none, tags := none }

/-! Helper lemmas shared by the claim theorems. -/

/-- A successful `complete_session` run decomposes into: the session was
found for this owner, it was not yet completed, no referenced speech id
was missing, and the outputs are the completed store and session. -/
theorem completeSession_ok_elim {db : Db} {uid : Nat}
    {req : CompleteGameSessionRequest} {now : Nat} {db' : Db}
    {s' : GameSessionRec}
    (h : completeSession db uid req now = Except.ok (db', s')) :
    ∃ s0, findSession db uid req.sessionId = some s0 ∧
      s0.completedAt.isSome = false ∧
      ((req.results.map (fun r => r.speechId)).filter
        (fun i => !(speechIdExists db i))) = [] ∧
      db' = completedDbOf db s0 req now ∧
      s' = completedSessionOf s0 req now := by
  unfold completeSession at h
  cases hf : findSession db uid req.sessionId with
  | none => rw [hf] at h; exact absurd h (by simp)
  | some s0 =>
    rw [hf] at h
    dsimp only at h
    by_cases hdone : s0.completedAt.isSome
    · simp [hdone] at h
    · rw [if_neg hdone] at h
      by_cases hmiss : ((req.results.map (fun r => r.speechId)).filter
          (fun i => !(speechIdExists db i))) = []
      · rw [if_pos hmiss] at h
        refine ⟨s0, rfl, by simpa using hdone, hmiss, ?_, ?_⟩
        · exact (Prod.mk.injEq _ _ _ _ |>.mp (Except.ok.inj h)).1.symm
        · exact (Prod.mk.injEq _ _ _ _ |>.mp (Except.ok.inj h)).2.symm
      · rw [if_neg hmiss] at h
        exact absurd h (by simp)

/-- The three response counts of any batch add up to its length: each
result's `user_response` is exactly one of correct, incorrect, skipped. -/
theorem countResponses_sum (l : List GameResultInput) :
    l.countP (fun r => r.userResponse == UserResponse.correct) +
      l.countP (fun r => r.userResponse == UserResponse.incorrect) +
      l.countP (fun r => r.userResponse == UserResponse.skipped) = l.length := by
  induction l with
  | nil => simp
  | cons x xs ih =>
    simp only [List.countP_cons, List.length_cons]
    cases hx : x.userResponse <;> simp [hx] <;> omega

/-- C2: `create_session` builds the session with all four counters zero,
but because `game_session.py` declares `completed_at` with
`nullable=False, server_default=func.now()`, the row the database
persists carries the insert time in `completed_at`, never null — the
code contradicts the service logic's own null-means-in-progress
convention (the `if session.completed_at` guard, the response encoder's
`if session.completed_at else None`, and the comment "Will be updated
when session completes"). -/
theorem create_session_persisted_row (db : Db) (uid newId : Nat)
    (req : CreateGameSessionRequest) (now : Nat) :
    ((createSession db uid newId req).2).totalSpeeches = 0 ∧
    ((createSession db uid newId req).2).correctCount = 0 ∧
    ((createSession db uid newId req).2).incorrectCount = 0 ∧
    ((createSession db uid newId req).2).skippedCount = 0 ∧
    (persistSession (createSession db uid newId req).2 now).completedAt = some now ∧
    (persistSession (createSession db uid newId req).2 now).completedAt ≠ none := by
  refine ⟨rfl, rfl, rfl, rfl, rfl, by simp [persistSession, createSession,
    persistCompletedAt, completedAtColumn]⟩

/-- C3: when the session's `completed_at` is already set,
`complete_session` fails with Validation and leaves the store — counters,
aggregates, results and `completed_at` included — exactly as it was:
completion is a one-shot transition (`game_service.py` lines 87-88). -/
theorem complete_session_one_shot (db : Db) (uid : Nat)
    (req : CompleteGameSessionRequest) (now : Nat) (s : GameSessionRec)
    (hfind : findSession db uid req.sessionId = some s)
    (hdone : s.completedAt.isSome = true) :
    runComplete db uid req now = (db, some Err.validation) := by
  unfold runComplete completeSession
  rw [hfind]
  simp [hdone]

/-- C3 witness: completing the already-completed session 10 again fails
with Validation and changes nothing. -/
theorem complete_session_one_shot_witness :
    runComplete completedDb 1 scoredReq 9 = (completedDb, some Err.validation) :=
  complete_session_one_shot completedDb 1 scoredReq 9
    { listenOnlySession with completedAt := some 3 } (by decide) (by decide)

/-- C4: a batch referencing at least one speech id absent from the
content store is rejected whole with Validation: no `GameResult` row is
created and the session stays uncompleted, the store being returned
untouched (`game_service.py` lines 90-99). -/
theorem complete_session_all_or_nothing (db : Db) (uid : Nat)
    (req : CompleteGameSessionRequest) (now : Nat) (s : GameSessionRec)
    (hfind : findSession db uid req.sessionId = some s)
    (hfresh : s.completedAt = none)
    (r : GameResultInput) (hr : r ∈ req.results)
    (hmissing : speechIdExists db r.speechId = false) :
    runComplete db uid req now = (db, some Err.validation) := by
  unfold runComplete completeSession
  rw [hfind]
  have hne : ((req.results.map (fun r => r.speechId)).filter
      (fun i => !(speechIdExists db i))) ≠ [] := by
    intro hempty
    have hmem : r.speechId ∈ (req.results.map (fun r => r.speechId)).filter
        (fun i => !(speechIdExists db i)) := by
      rw [List.mem_filter]
      exact ⟨List.mem_map_of_mem _ hr, by simp [hmissing]⟩
    rw [hempty] at hmem
    simp at hmem
  simp [hfresh, hne]

/-- C4 witness: a batch referencing the nonexistent speech id 99 is
rejected with Validation and the store is unchanged. -/
theorem complete_session_all_or_nothing_witness :
    runComplete listenOnlyDb 1 missingSpeechReq 5 =
      (listenOnlyDb, some Err.validation) :=
  complete_session_all_or_nothing listenOnlyDb 1 missingSpeechReq 5
    listenOnlySession (by decide) (by decide)
    { scoredInput with speechId := 99 } (by decide) (by decide)

/-- C6: when no session both matches the requested id and is owned by the
caller — the id does not exist at all, or the session belongs to another
user — `complete_session` raises NotFound and the `get_session` route
answers NotFound, the same error kind in both cases (`game_service.py`
lines 75-85 and 186-197, `api/v1/game.py` `get_game_session`). -/
theorem session_access_uniform_not_found (db : Db) (uid sid : Nat)
    (req : CompleteGameSessionRequest) (now : Nat)
    (hreq : req.sessionId = sid)
    (habsent : ∀ s ∈ db.sessions, ¬(s.id = sid ∧ s.userId = uid)) :
    runComplete db uid req now = (db, some Err.notFound) ∧
    getGameSessionRoute db uid sid = Except.error Err.notFound := by
  have hnone : findSession db uid sid = none := by
    unfold findSession
    rw [List.find?_eq_none]
    intro s hs
    simp only [Bool.and_eq_true, beq_iff_eq, not_and]
    intro h1 h2
    exact habsent s hs ⟨h1, h2⟩
  constructor
  · unfold runComplete completeSession
    rw [hreq, hnone]
  · unfold getGameSessionRoute getSessionById
    rw [hnone]

/-- C6 witness: session 10 exists but belongs to user 1; caller 2 gets
NotFound from both operations, not a distinguishable error. -/
theorem session_access_uniform_not_found_witness :
    runComplete listenOnlyDb 2 scoredReq 5 = (listenOnlyDb, some Err.notFound) ∧
    getGameSessionRoute listenOnlyDb 2 10 = Except.error Err.notFound :=
  session_access_uniform_not_found listenOnlyDb 2 10 scoredReq 5 (by decide)
    (by decide)

/-- C5: every accepted batch yields counters that are exactly the counts
of results by `user_response`, a total equal to the batch length, and the
three counters always add up to the total (`game_service.py` lines
102-146). -/
theorem complete_session_counters (db : Db) (uid : Nat)
    (req : CompleteGameSessionRequest) (now : Nat) (db' : Db)
    (s' : GameSessionRec)
    (h : completeSession db uid req now = Except.ok (db', s')) :
    s'.correctCount =
      req.results.countP (fun r => r.userResponse == UserResponse.correct) ∧
    s'.incorrectCount =
      req.results.countP (fun r => r.userResponse == UserResponse.incorrect) ∧
    s'.skippedCount =
      req.results.countP (fun r => r.userResponse == UserResponse.skipped) ∧
    s'.totalSpeeches = req.results.length ∧
    s'.correctCount + s'.incorrectCount + s'.skippedCount = s'.totalSpeeches := by
  obtain ⟨s0, _, _, _, _, hs⟩ := completeSession_ok_elim h
  subst hs
  exact ⟨rfl, rfl, rfl, rfl, countResponses_sum req.results⟩

/-- C5 witness: the two-result batch (one correct, one skipped) gives
counters 1/0/1 summing to the total of 2. -/
theorem complete_session_counters_witness :
    (completedSessionOf listenRepeatSession twoScoredReq 5).correctCount +
      (completedSessionOf listenRepeatSession twoScoredReq 5).incorrectCount +
      (completedSessionOf listenRepeatSession twoScoredReq 5).skippedCount =
    (completedSessionOf listenRepeatSession twoScoredReq 5).totalSpeeches :=
  (complete_session_counters listenRepeatDb 1 twoScoredReq 5
    (completedDbOf listenRepeatDb listenRepeatSession twoScoredReq 5)
    (completedSessionOf listenRepeatSession twoScoredReq 5) rfl).2.2.2.2

/-- C1 counterexample: a `listen_only` session completed with a batch
whose single result carries pronunciation score 80. The claim says the
aggregate equals the mean of the non-null scores (80) regardless of mode;
the code's `if session.mode == GameMode.LISTEN_AND_REPEAT` guard
(`game_service.py` line 134) leaves the aggregate null instead. -/
theorem complete_session_avg_not_mode_gated_cex :
    scoredReq.results.filterMap (fun r => r.pronunciationScore) = [(80 : ℚ)] ∧
    (completeSession listenOnlyDb 1 scoredReq 5).toOption.map
      (fun p => p.2.avgPronunciationScore) = some none := by decide

/-- C1 amended: each aggregate score field of the completed session
equals the unweighted arithmetic mean of the non-null values of that
score field in the batch when the session's mode is `listen_and_repeat`
and at least one such value is present; otherwise — including for
`listen_only` sessions whose results do carry scores — it keeps the
session's stored value, which is null for sessions made by
`create_session`; never zero and never an error. -/
theorem complete_session_avg_scores (db : Db) (uid : Nat)
    (req : CompleteGameSessionRequest) (now : Nat) (db' : Db)
    (s' s0 : GameSessionRec)
    (h : completeSession db uid req now = Except.ok (db', s'))
    (hfind : findSession db uid req.sessionId = some s0) :
    (s'.avgPronunciationScore =
      if s0.mode = GameMode.listenAndRepeat ∧
          req.results.filterMap (fun r => r.pronunciationScore) ≠ []
      then some (listMean (req.results.filterMap (fun r => r.pronunciationScore)))
      else s0.avgPronunciationScore) ∧
    (s'.avgAccuracyScore =
      if s0.mode = GameMode.listenAndRepeat ∧
          req.results.filterMap (fun r => r.accuracyScore) ≠ []
      then some (listMean (req.results.filterMap (fun r => r.accuracyScore)))
      else s0.avgAccuracyScore) ∧
    (s'.avgFluencyScore =
      if s0.mode = GameMode.listenAndRepeat ∧
          req.results.filterMap (fun r => r.fluencyScore) ≠ []
      then some (listMean (req.results.filterMap (fun r => r.fluencyScore)))
      else s0.avgFluencyScore) := by
  obtain ⟨s1, hfind1, _, _, _, hs⟩ := completeSession_ok_elim h
  rw [hfind] at hfind1
  cases hfind1
  subst hs
  unfold completedSessionOf collectedScores
  cases hmode : s0.mode with
  | listenOnly =>
    simp [hmode]
  | listenAndRepeat =>
    refine ⟨?_, ?_, ?_⟩ <;>
      by_cases hne : req.results.filterMap (fun r => r.pronunciationScore) = [] <;>
      by_cases hne2 : req.results.filterMap (fun r => r.accuracyScore) = [] <;>
      by_cases hne3 : req.results.filterMap (fun r => r.fluencyScore) = [] <;>
      simp [hne, hne2, hne3]

/-- C1 witness: a `listen_and_repeat` session completed with scores 80
and 90 gets the mean 85. -/
theorem complete_session_avg_scores_witness :
    (completedSessionOf listenRepeatSession twoScoredReq 5).avgPronunciationScore =
      some 85 := by
  have h := complete_session_avg_scores listenRepeatDb 1 twoScoredReq 5
    (completedDbOf listenRepeatDb listenRepeatSession twoScoredReq 5)
    (completedSessionOf listenRepeatSession twoScoredReq 5)
    listenRepeatSession rfl (by decide)
  rw [h.1]
  have hc : listenRepeatSession.mode = GameMode.listenAndRepeat ∧
      twoScoredReq.results.filterMap (fun r => r.pronunciationScore) ≠ [] := by decide
  rw [if_pos hc]
  have hfm : twoScoredReq.results.filterMap (fun r => r.pronunciationScore) =
      [(80 : ℚ), 90] := by decide
  rw [hfm]
  norm_num [listMean]

/-- C7 counterexample: a fresh session completed with two results both
carrying sequence number 1 is accepted, storing two `game_results` rows
with the same `(session_id, sequence_number)` pair — the numbers are
neither unique nor densely 1..N — and the composite index declared in
`GameResult.__table_args__` carries no uniqueness constraint. -/
theorem game_result_sequence_not_unique_cex :
    (completeSession listenOnlyDb 1 duplicateSeqReq 5).toOption.map
      (fun p => p.1.results.map (fun r => (r.sessionId, r.sequenceNumber))) =
      some [(10, 1), (10, 1)] ∧
    gameResultsSessionSequenceIndex.unique = false ∧
    ¬ ([(10, 1), (10, 1)] : List (Nat × Nat)).Nodup := by decide

/-- C7 amended: the sequence numbers of a completed session's
`GameResult` rows are exactly the client-supplied ones, stored verbatim
in batch order (each at least 1 whenever the request passed the schema's
`ge=1` validation); the code enforces no uniqueness or density, and
`(session_id, sequence_number)` carries a plain non-unique index; the
rows are created only by this batch insertion at completion. -/
theorem game_result_sequence_verbatim (db : Db) (uid : Nat)
    (req : CompleteGameSessionRequest) (now : Nat) (db' : Db)
    (s' : GameSessionRec)
    (h : completeSession db uid req now = Except.ok (db', s'))
    (hvalid : ∀ r ∈ req.results, validResultInput r = true) :
    db'.results.map (fun r => r.sequenceNumber) =
      db.results.map (fun r => r.sequenceNumber) ++
        req.results.map (fun r => r.sequenceNumber) ∧
    (∀ r ∈ req.results, 1 ≤ r.sequenceNumber) ∧
    gameResultsSessionSequenceIndex.unique = false := by
  obtain ⟨s0, _, _, _, hdb, _⟩ := completeSession_ok_elim h
  subst hdb
  refine ⟨?_, ?_, rfl⟩
  · simp [completedDbOf, mkGameResult, List.map_map, Function.comp]
  · intro r hr
    have hv := hvalid r hr
    unfold validResultInput at hv
    simp only [Bool.and_eq_true, decide_eq_true_eq] at hv
    exact hv.1.1.1.1

/-- C7 amended witness: the duplicate-sequence batch is stored verbatim
as [1, 1]. -/
theorem game_result_sequence_verbatim_witness :
    (completedDbOf listenOnlyDb listenOnlySession duplicateSeqReq 5).results.map
        (fun r => r.sequenceNumber) =
      listenOnlyDb.results.map (fun r => r.sequenceNumber) ++
        duplicateSeqReq.results.map (fun r => r.sequenceNumber) :=
  (game_result_sequence_verbatim listenOnlyDb 1 duplicateSeqReq 5
    (completedDbOf listenOnlyDb listenOnlySession duplicateSeqReq 5)
    (completedSessionOf listenOnlySession duplicateSeqReq 5) rfl
    (by decide)).1

/-- C8: with a non-empty `tag_ids` list, a speech passes the filter of
`get_random_speeches` only if it carries every requested tag: the
matching-association count can reach the length of the request list only
when every listed tag is among the speech's tags (`speech_service.py`
lines 42-52). The duplicate-freeness of the speech's association list is
the junction table's composite primary key. -/
theorem random_speeches_tag_and_semantics (db : Db) (level : Option Level)
    (ty : Option SpeechType) (tagIds : List Nat) (s : SpeechRec)
    (hne : tagIds ≠ [])
    (hnodup : s.tags.Nodup)
    (hmem : s ∈ randomSpeechCandidates db level ty tagIds)
    (t : Nat) (ht : t ∈ tagIds) : t ∈ s.tags := by
  have hok : tagFilterOk tagIds s = true := by
    have hsp := (List.mem_filter.mp hmem).2
    simp only [Bool.and_eq_true] at hsp
    exact hsp.2
  unfold tagFilterOk at hok
  rw [if_neg (by simpa [List.isEmpty_iff] using hne)] at hok
  have hcount : tagMatchCount tagIds s.tags = tagIds.length := by
    simpa using hok
  by_contra hnot
  have hlenF : (s.tags.filter (fun x => decide (x ∈ tagIds))).length =
      tagIds.length := by
    simpa [tagMatchCount, List.countP_eq_length_filter] using hcount
  have hFnodup : (s.tags.filter (fun x => decide (x ∈ tagIds))).Nodup :=
    hnodup.filter _
  have hsub : (s.tags.filter (fun x => decide (x ∈ tagIds))).toFinset ⊆
      tagIds.toFinset.erase t := by
    intro x hx
    rw [List.mem_toFinset] at hx
    have hx' := List.mem_filter.mp hx
    rw [Finset.mem_erase]
    refine ⟨?_, ?_⟩
    · intro hxt
      exact hnot (hxt ▸ hx'.1)
    · rw [List.mem_toFinset]
      simpa using hx'.2
  have h1 : (s.tags.filter (fun x => decide (x ∈ tagIds))).toFinset.card =
      (s.tags.filter (fun x => decide (x ∈ tagIds))).length :=
    List.toFinset_card_of_nodup hFnodup
  have h2 : (tagIds.toFinset.erase t).card = tagIds.toFinset.card - 1 :=
    Finset.card_erase_of_mem (List.mem_toFinset.mpr ht)
  have h3 : tagIds.toFinset.card ≤ tagIds.length := tagIds.toFinset_card_le
  have h4 : 1 ≤ tagIds.toFinset.card :=
    Finset.card_pos.mpr ⟨t, List.mem_toFinset.mpr ht⟩
  have h5 := Finset.card_le_card hsub
  omega

/-- C8 witness: requesting tags [1, 2] over a store holding speech 1
(tagged 1 and 2), the candidate speech indeed carries tag 2. -/
theorem random_speeches_tag_and_semantics_witness :
    (2 : Nat) ∈ speechOne.tags :=
  random_speeches_tag_and_semantics listenOnlyDb none none [1, 2] speechOne
    (by decide) (by decide) (by decide) 2 (by decide)

/-- Membership in the file map after `add_file`: either the entry was
already there, or it is the new file keyed by its original filename. -/
theorem mem_addFile {session : UploadSessionRec} {f : UploadedFile}
    {k : String} {uf : UploadedFile}
    (h : (k, uf) ∈ (addFile session f).files) :
    (k, uf) ∈ session.files ∨ (k = f.originalFilename ∧ uf = f) := by
  unfold addFile dictInsert at h
  rcases List.mem_append.mp h with h1 | h2
  · exact Or.inl (List.mem_filter.mp h1).1
  · simp only [List.mem_singleton, Prod.mk.injEq] at h2
    exact Or.inr h2

/-- Every entry of the file map built by the upload loop is keyed by the
original filename of one of the processed inputs (or was already in the
session before the loop ran). -/
theorem uploadLoop_files_keys (sessionId : String) (files : List UploadInput) :
    ∀ (counts : List (String × Nat)) (session : UploadSessionRec)
      (acc : List UploadedFile) (nextId : Nat) (sess : UploadSessionRec)
      (ufs : List UploadedFile),
      uploadLoop sessionId counts session acc nextId files =
        Except.ok (sess, ufs) →
      ∀ k uf, (k, uf) ∈ sess.files →
        (k, uf) ∈ session.files ∨
          (k = uf.originalFilename ∧ k ∈ files.map (fun f => f.filename)) := by
  induction files with
  | nil =>
    intro counts session acc nextId sess ufs h k uf hk
    unfold uploadLoop at h
    cases h
    exact Or.inl hk
  | cons f rest ih =>
    intro counts session acc nextId sess ufs h k uf hk
    unfold uploadLoop at h
    by_cases hext : (!(getFileExtension f.filename ∈ allowedExtensions)) = true
    · rw [if_pos hext] at h; cases h
    · rw [if_neg hext] at h
      by_cases hsize : f.sizeBytes > maxFileSize
      · rw [if_pos hsize] at h; cases h
      · rw [if_neg hsize] at h
        dsimp only at h
        rcases ih _ _ _ _ _ _ h k uf hk with hin | ⟨horig, hmem⟩
        · rcases mem_addFile hin with hin2 | ⟨hk2, huf2⟩
          · exact Or.inl hin2
          · refine Or.inr ⟨?_, ?_⟩
            · rw [huf2]; exact hk2
            · rw [hk2]
              exact List.mem_cons_self _ _
        · exact Or.inr ⟨horig, List.mem_cons_of_mem _ hmem⟩

/-- C9 counterexample: uploading `a.mp3` twice in one call does store the
two blobs at distinct disambiguated paths, but the session's file map —
keyed by `uploaded_file.original_filename` in `UploadSession.add_file`
(`import_service.py` line 65) — holds a single entry under `a.mp3`,
pointing at the second duplicate; a CSV row naming the disambiguated
`a_1.mp3` fails validation, while one naming the original `a.mp3`
passes, the opposite of the claim. -/
theorem upload_duplicate_disambiguation_cex :
    uploadAudioFiles "sid" 0 dupUploadFiles =
      Except.ok (dupUploadSess, dupUploadList) ∧
    dupUploadList.map (fun u => u.storageUrl) =
      ["uploads/sid/a.mp3", "uploads/sid/a_1.mp3"] ∧
    dupUploadSess.files.map (fun p => p.1) = ["a.mp3"] ∧
    getFile dupUploadSess "a_1.mp3" = none ∧
    (getFile dupUploadSess "a.mp3").map (fun u => u.storageUrl) =
      some "uploads/sid/a_1.mp3" ∧
    (parseCsvRow dupUploadSess []
      { audioFilename := some "a_1.mp3", text := some "hi", level := some "A1"
        type := none, tags := none }).toOption.isSome = false ∧
    (parseCsvRow dupUploadSess []
      { audioFilename := some "a.mp3", text := some "hi", level := some "A1"
        type := none, tags := none }).toOption.isSome = true := by decide

/-- C9 amended: duplicates are stored under disambiguated storage paths,
but the upload session's file map is keyed by the original filename —
each later duplicate overwrites the earlier entry — so every key of the
map is an original filename of the call, and a CSV row referencing any
name that is not an original filename of the call (a disambiguated name
included) fails the file-map lookup with file-not-found. -/
theorem upload_session_map_original_names (sessionId : String) (now : Nat)
    (files : List UploadInput) (sess : UploadSessionRec)
    (ufs : List UploadedFile)
    (h : uploadAudioFiles sessionId now files = Except.ok (sess, ufs)) :
    (∀ k uf, (k, uf) ∈ sess.files →
      k = uf.originalFilename ∧ k ∈ files.map (fun f => f.filename)) ∧
    (∀ name, ¬ name ∈ files.map (fun f => f.filename) →
      getFile sess name = none) := by
  unfold uploadAudioFiles at h
  have hkeys := uploadLoop_files_keys sessionId files _ _ _ _ _ _ h
  constructor
  · intro k uf hk
    rcases hkeys k uf hk with hin | hout
    · simp at hin
    · exact hout
  · intro name hname
    unfold getFile
    cases hfind : sess.files.find? (fun p => p.1 == name) with
    | none => rfl
    | some p =>
      exfalso
      have hpmem : p ∈ sess.files := List.mem_of_find?_eq_some hfind
      have hpeq := List.find?_some hfind
      simp only [beq_iff_eq] at hpeq
      rcases hkeys p.1 p.2 (by simpa using hpmem) with hin | ⟨_, hmem⟩
      · simp at hin
      · rw [hpeq] at hmem
        exact hname hmem

/-- C9 amended witness: after the duplicate upload, looking up the
disambiguated name `a_1.mp3` in the session file map finds nothing. -/
theorem upload_session_map_original_names_witness :
    getFile dupUploadSess "a_1.mp3" = none :=
  (upload_session_map_original_names "sid" 0 dupUploadFiles dupUploadSess
    dupUploadList (by decide)).2 "a_1.mp3" (by decide)

/-- The row numbers carried by the validation errors are exactly the
`failIndices` positions, counting from the starting row number, whenever
the validation pass completes without an escaping `AttributeError`. -/
theorem processRows_error_rows (sess : UploadSessionRec) :
    ∀ (rows : List CsvRow) (seen : List String) (n : Nat)
      (ps : List (Nat × ParsedRow)) (es : List CsvError),
      processRows sess seen n rows = Except.ok (ps, es) →
      es.map (fun e => e.row) = failIndices sess seen n rows := by
  intro rows
  induction rows with
  | nil =>
    intro seen n ps es h
    unfold processRows at h
    cases h
    rfl
  | cons row rest ih =>
    intro seen n ps es h
    unfold processRows at h
    unfold failIndices
    cases hp : parseCsvRow sess seen row with
    | ok p =>
      rw [hp] at h
      dsimp only at h
      cases hr : processRows sess (seen ++ row.audioFilename.toList) (n + 1) rest with
      | ok rs =>
        rw [hr] at h
        dsimp only at h
        cases h
        exact ih (seen ++ row.audioFilename.toList) (n + 1) rs.1 rs.2 (by rw [hr])
      | error e =>
        rw [hr] at h
        exact absurd h (by simp)
    | error pe =>
      cases pe with
      | valueError msg =>
        rw [hp] at h
        dsimp only at h
        cases hr : processRows sess seen (n + 1) rest with
        | ok rs =>
          rw [hr] at h
          dsimp only at h
          cases h
          simp [ih seen (n + 1) rs.1 rs.2 (by rw [hr])]
        | error e =>
          rw [hr] at h
          exact absurd h (by simp)
      | attributeError =>
        rw [hp] at h
        exact absurd h (by simp)

/-- Shifting the starting index of `failIndices` shifts every reported
index by the same amount. -/
theorem failIndices_shift (sess : UploadSessionRec) :
    ∀ (rows : List CsvRow) (seen : List String) (n m : Nat),
      failIndices sess seen (n + m) rows =
        (failIndices sess seen m rows).map (fun i => i + n) := by
  intro rows
  induction rows with
  | nil => intro seen n m; rfl
  | cons row rest ih =>
    intro seen n m
    unfold failIndices
    cases hp : parseCsvRow sess seen row with
    | ok p =>
      dsimp only
      rw [show n + m + 1 = n + (m + 1) from by omega]
      exact ih (seen ++ row.audioFilename.toList) n (m + 1)
    | error e =>
      dsimp only
      rw [show n + m + 1 = n + (m + 1) from by omega]
      rw [ih seen n (m + 1)]
      simp [Nat.add_comm n m]

/-- Every failing index lies between the starting row number and the end
of the row list. -/
theorem failIndices_bounds (sess : UploadSessionRec) :
    ∀ (rows : List CsvRow) (seen : List String) (n j : Nat),
      j ∈ failIndices sess seen n rows → n ≤ j ∧ j < n + rows.length := by
  intro rows
  induction rows with
  | nil => intro seen n j hj; exact absurd hj (by simp [failIndices])
  | cons row rest ih =>
    intro seen n j hj
    unfold failIndices at hj
    cases hp : parseCsvRow sess seen row with
    | ok p =>
      rw [hp] at hj
      have := ih (seen ++ row.audioFilename.toList) (n + 1) j hj
      simp only [List.length_cons]
      omega
    | error e =>
      rw [hp] at hj
      rcases List.mem_cons.mp hj with hj1 | hj2
      · subst hj1; simp only [List.length_cons]; omega
      · have := ih seen (n + 1) j hj2
        simp only [List.length_cons]
        omega

/-- The failing indices are pairwise distinct. -/
theorem failIndices_nodup (sess : UploadSessionRec) :
    ∀ (rows : List CsvRow) (seen : List String) (n : Nat),
      (failIndices sess seen n rows).Nodup := by
  intro rows
  induction rows with
  | nil => intro seen n; simp [failIndices]
  | cons row rest ih =>
    intro seen n
    unfold failIndices
    cases hp : parseCsvRow sess seen row with
    | ok p => exact ih (seen ++ row.audioFilename.toList) (n + 1)
    | error e =>
      refine List.nodup_cons.mpr ⟨?_, ih seen (n + 1)⟩
      intro hmem
      have := failIndices_bounds sess rest seen (n + 1) n hmem
      omega

/-- On the runs where the row-validation loop finishes (no short-row
`AttributeError` escapes), `import_csv` with a non-empty error list
creates zero speeches, returns the store untouched, and reports exactly
one error per failing row, with row numbers equal to the 0-based
data-row index plus 2 (the header counts as row 1). -/
theorem import_csv_error_collection (db : Db) (sess : UploadSessionRec)
    (now : Nat) (rows : List CsvRow) (created : List CreatedSpeech)
    (errors : List CsvError) (db2 : Db)
    (h : importCsv db sess now rows = Except.ok (created, errors, db2))
    (hne : errors ≠ []) :
    created = [] ∧ db2 = db ∧
    errors.map (fun e => e.row) =
      (failIndices sess [] 0 rows).map (fun i => i + 2) ∧
    (errors.map (fun e => e.row)).Nodup ∧
    (∀ e ∈ errors, 2 ≤ e.row ∧ e.row < 2 + rows.length) := by
  unfold importCsv at h
  by_cases hexp : isExpired sess now = true
  · rw [if_pos hexp] at h; cases h
  · rw [if_neg hexp] at h
    cases hpr : processRows sess [] 2 rows with
    | error e =>
      rw [hpr] at h
      exact absurd h (by simp)
    | ok vr =>
      rw [hpr] at h
      dsimp only at h
      by_cases hv : vr.2 = []
      · rw [if_pos hv] at h
        have hinj := Except.ok.inj h
        exact absurd (congrArg (fun q => q.2.1) hinj).symm hne
      · rw [if_neg hv] at h
        have hinj := Except.ok.inj h
        have hcreated : created = [] := (congrArg Prod.fst hinj).symm
        have herrors : errors = vr.2 :=
          (congrArg (fun q => q.2.1) hinj).symm
        have hdb : db2 = db := (congrArg (fun q => q.2.2) hinj).symm
        have hrows : errors.map (fun e => e.row) =
            (failIndices sess [] 0 rows).map (fun i => i + 2) := by
          rw [herrors,
            processRows_error_rows sess rows [] 2 vr.1 vr.2 (by rw [hpr])]
          have := failIndices_shift sess rows [] 2 0
          simpa using this
        refine ⟨hcreated, hdb, hrows, ?_, ?_⟩
        · rw [hrows]
          exact (failIndices_nodup sess rows [] 0).map
            (fun a b hab => by omega)
        · intro e he
          have hemem : e.row ∈ errors.map (fun e => e.row) :=
            List.mem_map_of_mem _ he
          rw [hrows] at hemem
          obtain ⟨j, hj, hje⟩ := List.mem_map.mp hemem
          have := failIndices_bounds sess rows [] 0 j hj
          omega

/-- C10: the claim fails on a case the code mishandles. A data row
shorter than the header gets `None` restvals from `csv.DictReader`, on
which `_parse_csv_row`'s `row.get("text", "").strip()` raises
`AttributeError` — not the `ValueError` the loop's `except` catches — so
`import_csv` crashes and returns no per-row error list at all, where the
claim (and the code's own "Missing required field" `ValueError` path,
its documented `(created_speeches, validation_errors)` return contract
and the spec's "missing filename/text/level" row-error list) require a
collected validation error for that row. Evaluated here on the short row
`b.mp3` of a header `audio_filename,text,level`: the row parse raises
`AttributeError` and the whole import crashes instead of reporting. -/
theorem import_csv_short_row_crash :
    parseCsvRow csvUploadSess [] shortCsvRow =
      Except.error PyError.attributeError ∧
    importCsv emptyDb csvUploadSess 1 [goodCsvRow, shortCsvRow] =
      Except.error PyError.attributeError := by decide

end EnglishPractice
